import Mathlib

/-!
# Verification of the jupyagent Environment Lifecycle Controller

Shallow embedding of `src/jupyagent/main.py` (the current implementation of
the jupyagent CLI).  Python dictionaries with string values become
association lists, the file system becomes explicit maps from path strings
to contents, external process invocations (the Docker CLI) become oracle
parameters recording only what the source observes of them (exit codes,
captured stdout), and Python exceptions become `Except` results.  All
definitions are translated from the source; each definition's doc comment
names the source lines it embeds.
-/

namespace Jupyagent

/-- A Python `dict` with string keys and string values, as used for the
persisted `config.json` object (all values stored by `cmd_setup` are
strings).  Keys are unique in real dictionaries; lookup takes the first
binding. -/
abbrev Dict := List (String × String)

/-- Python `d.get(k)`: `None` when the key is missing. -/
def Dict.get? (d : Dict) (k : String) : Option String :=
  (d.find? (fun kv => kv.1 = k)).map (fun kv => kv.2)

/-- Python `d.get(k, dflt)`. -/
def Dict.getD (d : Dict) (k dflt : String) : String :=
  (Dict.get? d k).getD dflt

/-- Python truthiness of an optional dict (`if config:`): `None` and the
empty dict `{}` are falsy. -/
def dictTruthy (c : Option Dict) : Bool :=
  match c with
  | none => false
  | some d => !d.isEmpty

/-- The observable state of one file path when the program reads it:
the path may be missing, may exist but fail to read (Python `open` /
`read_text` raising `OSError`, e.g. a permission error), or may yield
textual content. -/
inductive FileState
  | missing
  | unreadable
  | content (s : String)
deriving DecidableEq, Repr

/-- The default whitespace characters stripped by Python `str.strip()`
(the ASCII ones; the token and config files handled here are ASCII
text). -/
def pyWhitespace (c : Char) : Bool :=
  c = ' ' || c = '\t' || c = '\n' || c = '\r' || c = '\x0b' || c = '\x0c'

/-- Drop leading whitespace from a character list. -/
def dropLeadingWs : List Char → List Char
  | [] => []
  | c :: cs => if pyWhitespace c then dropLeadingWs cs else c :: cs

/-- Embeds Python `str.strip()` with no argument: remove leading and
trailing whitespace. -/
def pyStrip (s : String) : String :=
  (((dropLeadingWs s.data).reverse |> dropLeadingWs).reverse).asString

/-- Whether `needle` is a prefix of `hay` (character-wise). -/
def listPrefixOf : List Char → List Char → Bool
  | [], _ => true
  | _ :: _, [] => false
  | a :: as, b :: bs => a = b && listPrefixOf as bs

/-- Whether `needle` occurs as a contiguous sublist of `hay`. -/
def listContainsSub (needle : List Char) : List Char → Bool
  | [] => listPrefixOf needle []
  | c :: cs => listPrefixOf needle (c :: cs) || listContainsSub needle cs

/-- Python `sub in s` substring test. -/
def strContains (s sub : String) : Bool :=
  listContainsSub sub.data s.data

/-- Python `str.lower()` (ASCII case folding suffices for the Docker
status text inspected here). -/
def pyLower (s : String) : String :=
  (s.data.map Char.toLower).asString

/-- Python `str.endswith(suffix)`. -/
def pyEndsWith (s suffix : String) : Bool :=
  List.isSuffixOf suffix.data s.data

/-- Split a character list on a separator character (like Python
`str.split(sep)` for a one-character separator). -/
def splitOnChar (sep : Char) : List Char → List (List Char)
  | [] => [[]]
  | c :: cs =>
    match splitOnChar sep cs with
    | [] => [[]]
    | h :: t => if c = sep then [] :: h :: t else (c :: h) :: t

/-- Split a string on a one-character separator. -/
def pySplitChar (s : String) (sep : Char) : List String :=
  (splitOnChar sep s.data).map List.asString

-- --- Constants (main.py lines 58-64) ---

/-- Constant `CONFIG_DIR = Path.home() / ".jupyagent"`, parameterised by the home
directory. -/
def CONFIG_DIR (home : String) : String := home ++ "/.jupyagent"

/-- Constant `COMPOSE_FILE = CONFIG_DIR / "docker-compose.yml"` -/
def COMPOSE_FILE (home : String) : String := CONFIG_DIR home ++ "/docker-compose.yml"

/-- Constant `ENV_FILE = CONFIG_DIR / ".env"` -/
def ENV_FILE (home : String) : String := CONFIG_DIR home ++ "/.env"

/-- Constant `CONFIG_JSON = CONFIG_DIR / "config.json"` -/
def CONFIG_JSON (home : String) : String := CONFIG_DIR home ++ "/config.json"

/-- Constant `DEFAULT_TOKEN = "jupyagent"` (main.py line 64). -/
def DEFAULT_TOKEN : String := "jupyagent"

-- --- Config Store ---

/-- Embeds `load_config` (main.py lines 146-153):

    if CONFIG_JSON.exists():
        try:
            with open(CONFIG_JSON, "r") as f:
                return json.load(f)
        except json.JSONDecodeError:
            return None
    return None

`file` is the state of `CONFIG_JSON`; `parseJson` is the JSON parser
(`json.load`), returning `none` exactly when parsing raises
`json.JSONDecodeError`.  Only `json.JSONDecodeError` is caught: when the
file exists but `open`/read raises an `OSError`, that exception
propagates to the caller, which the embedding records as `.error ()`. -/
def load_config (file : FileState) (parseJson : String → Option Dict) :
    Except Unit (Option Dict) :=
  match file with
  | .missing => .ok none
  | .unreadable => .error ()
  | .content s => .ok (parseJson s)

-- --- File-system model ---

/-- The mutable parts of the on-disk state that `generate_docker_files`
and `cmd_start` touch: file contents, directory existence, and the
executable bit set by `os.chmod(dest_path, 0o755)`. -/
@[ext]
structure FS where
  files : String → Option String
  dirs : String → Bool
  execBit : String → Bool

/-- Python `open(p, "w").write(c)`: create or overwrite the file at `p`. -/
def FS.write (fs : FS) (p c : String) : FS :=
  { fs with files := fun q => if q = p then some c else fs.files q }

/-- Python `Path(d).mkdir(exist_ok=True)`: idempotent directory creation. -/
def FS.mkdirP (fs : FS) (d : String) : FS :=
  { fs with dirs := fun q => if q = d then true else fs.dirs q }

/-- Python `os.chmod(p, 0o755)` on a generated script. -/
def FS.chmod755 (fs : FS) (p : String) : FS :=
  { fs with execBit := fun q => if q = p then true else fs.execBit q }

/-- Python `Path(p).unlink()`: remove the file at `p`. -/
def FS.unlink (fs : FS) (p : String) : FS :=
  { fs with files := fun q => if q = p then none else fs.files q }

/-- Python `Path(p).exists()` as far as files are concerned. -/
def FS.fileExists (fs : FS) (p : String) : Bool :=
  (fs.files p).isSome

@[simp]
theorem FS.files_write (fs : FS) (p c q : String) :
    (fs.write p c).files q = if q = p then some c else fs.files q := rfl

@[simp]
theorem FS.dirs_write (fs : FS) (p c : String) : (fs.write p c).dirs = fs.dirs := rfl

@[simp]
theorem FS.execBit_write (fs : FS) (p c : String) :
    (fs.write p c).execBit = fs.execBit := rfl

@[simp]
theorem FS.files_mkdirP (fs : FS) (d : String) : (fs.mkdirP d).files = fs.files := rfl

@[simp]
theorem FS.dirs_mkdirP (fs : FS) (d q : String) :
    (fs.mkdirP d).dirs q = if q = d then true else fs.dirs q := rfl

@[simp]
theorem FS.execBit_mkdirP (fs : FS) (d : String) :
    (fs.mkdirP d).execBit = fs.execBit := rfl

@[simp]
theorem FS.files_chmod755 (fs : FS) (p : String) :
    (fs.chmod755 p).files = fs.files := rfl

@[simp]
theorem FS.dirs_chmod755 (fs : FS) (p : String) :
    (fs.chmod755 p).dirs = fs.dirs := rfl

@[simp]
theorem FS.execBit_chmod755 (fs : FS) (p q : String) :
    (fs.chmod755 p).execBit q = if q = p then true else fs.execBit q := rfl

-- --- Artifact Generator (main.py lines 172-244) ---

/-- The build-context files copied from the package
(`docker_files` list, main.py lines 179-187). -/
def docker_files : List String :=
  ["Dockerfile", "supervisord.conf", "start.sh", "opencode.json.template",
   "register-kernel.sh", "run-jupyter-mcp.sh", "jupyter_settings.json"]

/-- Path `jupyter_dir = CONFIG_DIR / "jupyter"` (main.py line 175). -/
def jupyter_dir (home : String) : String := CONFIG_DIR home ++ "/jupyter"

/-- Path `opencode_config_dir = CONFIG_DIR / "opencode_config"` (line 199).
`str(dir.resolve())` on this already-absolute path is the path itself. -/
def opencode_config_dir (home : String) : String := CONFIG_DIR home ++ "/opencode_config"

/-- Path `opencode_data_dir = CONFIG_DIR / "opencode_data"` (line 200). -/
def opencode_data_dir (home : String) : String := CONFIG_DIR home ++ "/opencode_data"

/-- Path `claude_config_dir = CONFIG_DIR / "claude_config"` (line 205). -/
def claude_config_dir (home : String) : String := CONFIG_DIR home ++ "/claude_config"

/-- The `.env` file written by `generate_docker_files`
(main.py lines 217-220): three `KEY=value` lines, values substituted
verbatim with no quoting or escaping. -/
def env_file_content (jupyter_token ro_path rw_path : String) : String :=
  "JUPYTER_TOKEN=" ++ jupyter_token ++ "\n" ++
  "RO_PATH=" ++ ro_path ++ "\n" ++
  "RW_PATH=" ++ rw_path ++ "\n"

/-- The `docker-compose.yml` text built by the f-string
`compose_content` (main.py lines 223-242): direct text substitution of
the paths and token into the template, with no quoting or escaping. -/
def compose_content (home ro_path rw_path jupyter_token : String) : String :=
  "services:\n" ++
  "  jupyagent:\n" ++
  "    image: jupyagent\n" ++
  "    container_name: jupyagent\n" ++
  "    build: ./jupyter\n" ++
  "    ports:\n" ++
  "      - \"8888:8888\"  # Jupyter Lab\n" ++
  "      - \"8282:8080\"  # ttyd Web Terminal\n" ++
  "      - \"3000:3000\"  # Opencode UI\n" ++
  "      - \"1455:1455\"  # Opencode OAuth callback\n" ++
  "    environment:\n" ++
  "      - JUPYTER_TOKEN=" ++ jupyter_token ++ "\n" ++
  "      - CLAUDE_CONFIG_DIR=/home/jovyan/.claude\n" ++
  "    volumes:\n" ++
  "      - " ++ ro_path ++ ":/mnt/ro_data:ro\n" ++
  "      - " ++ rw_path ++ ":/workspace:rw\n" ++
  "      - " ++ opencode_config_dir home ++ ":/home/jovyan/.config/opencode:rw\n" ++
  "      - " ++ opencode_data_dir home ++ ":/home/jovyan/.local/share/opencode:rw\n" ++
  "      - " ++ claude_config_dir home ++ ":/home/jovyan/.claude:rw\n"

/-- The copy loop of `generate_docker_files` (main.py lines 189-196):
each packaged docker file is written into the build context and scripts
are made executable.  `pkg` is `get_docker_file_content`: the packaged
file contents, fixed for a given installation. -/
def copy_docker_files (home : String) (pkg : String → String) (fs : FS) : FS :=
  docker_files.foldl
    (fun fs name =>
      let fs := fs.write (jupyter_dir home ++ "/" ++ name) (pkg name)
      if pyEndsWith name ".sh" then fs.chmod755 (jupyter_dir home ++ "/" ++ name) else fs)
    fs

/-- The body of `generate_docker_files` (main.py lines 172-244) once
the config values are available, in source order: create the
build-context directory, copy the packaged docker files, create the
persistent-storage directories, then write the `.env` file and
`docker-compose.yml`. -/
def generate_docker_files_ok (home : String) (pkg : String → String)
    (ro_path rw_path jupyter_token : String) (fs : FS) : FS :=
  let fs := fs.mkdirP (jupyter_dir home)
  let fs := copy_docker_files home pkg fs
  let fs := fs.mkdirP (opencode_config_dir home)
  let fs := fs.mkdirP (opencode_data_dir home)
  let fs := fs.mkdirP (claude_config_dir home)
  let fs := fs.write (ENV_FILE home) (env_file_content jupyter_token ro_path rw_path)
  fs.write (COMPOSE_FILE home) (compose_content home ro_path rw_path jupyter_token)

/-- Embeds `generate_docker_files` (main.py lines 172-244).  The values
`config["ro_path"]` and `config["rw_path"]` are read with Python `[]`
lookup, which raises `KeyError` on a dict without the key, embedded as
`.error` (the source reads them after the directory creation and file
copies, but no caller observes the partial state of that aborted run);
`config.get("jupyter_token", DEFAULT_TOKEN)` falls back to the default
token. -/
def generate_docker_files (home : String) (pkg : String → String) (config : Dict)
    (fs : FS) : Except String FS :=
  match Dict.get? config "ro_path", Dict.get? config "rw_path" with
  | some ro_path, some rw_path =>
    .ok (generate_docker_files_ok home pkg ro_path rw_path
      (Dict.getD config "jupyter_token" DEFAULT_TOKEN) fs)
  | _, _ => .error "KeyError"

-- --- Lifecycle Controller: stop ---

/-- Embeds `cmd_stop` (main.py lines 515-525):

    if not CONFIG_JSON.exists():
        return "[warning]Not set up.[/warning]"
    with console.status(...):
        subprocess.run(DOCKER_CMD + ["compose", "-f", str(COMPOSE_FILE), "down"], ...)
    return "[success]Services stopped.[/success]"

`configJsonExists` is `CONFIG_JSON.exists()`; `downExit` is the exit code
of the `compose down` invocation.  The `subprocess.run` call has no
`check=True`, so a non-zero exit code raises nothing and is ignored.
Returns the user-visible message and whether the tear-down command was
invoked at all. -/
def cmd_stop (configJsonExists : Bool) (downExit : Nat) : String × Bool :=
  if !configJsonExists then
    ("[warning]Not set up.[/warning]", false)
  else
    -- `downExit` is received but never inspected by the source.
    let _ := downExit
    ("[success]Services stopped.[/success]", true)

-- --- Lifecycle Controller: start (main.py lines 417-482) ---

/-- Whether a polled `FileState` counts as "not ready" in the sense of the
readiness contract: the file is absent, or readable with content that is
empty after stripping.  (An unreadable file is not "not ready": reading it
raises.) -/
def notReady (st : FileState) : Bool :=
  match st with
  | .missing => true
  | .unreadable => false
  | .content s => pyStrip s = ""

/-- The readiness-poll loop of `cmd_start` (main.py lines 463-471):

    token = None
    if token_file:
        for _ in range(30):
            if token_file.exists():
                content = token_file.read_text().strip()
                if content:
                    token = content
                    break
            time.sleep(1)

`poll i` is the observed state of the token file at the `i`-th one-second
attempt (the file is written concurrently by the started container, so
the state varies over time).  `read_text()` raising inside the loop is
not caught by the surrounding `except subprocess.CalledProcessError`
handler, so it propagates (`.error`). -/
def pollLoop (poll : Nat → FileState) (i remaining : Nat) :
    Except Unit (Option String) :=
  match remaining with
  | 0 => .ok none
  | r + 1 =>
    match poll i with
    | .missing => pollLoop poll (i + 1) r
    | .unreadable => .error ()
    | .content s =>
      if pyStrip s ≠ "" then .ok (some (pyStrip s))
      else pollLoop poll (i + 1) r

/-- The number of readiness-poll attempts, `range(30)` (main.py line 465). -/
def POLL_ATTEMPTS : Nat := 30

/-- The stale-credential cleanup phase of `cmd_start`
(main.py lines 432-439):

    config = load_config() or {}
    rw_path = config.get("rw_path")
    token_file = None
    if rw_path:
        token_file = Path(rw_path) / "TOKEN.txt"
        if token_file.exists():
            token_file.unlink()

`cfg` is the result of the (non-raising) `load_config() or {}`.  Returns
the updated file system and the token-file path (`None` when `rw_path`
is unset or empty, i.e. falsy). -/
def start_cleanup (cfg : Dict) (fs : FS) : FS × Option String :=
  match Dict.get? cfg "rw_path" with
  | none => (fs, none)
  | some rw_path =>
    if rw_path = "" then (fs, none)
    else
      let token_file := rw_path ++ "/TOKEN.txt"
      if fs.fileExists token_file then (fs.unlink token_file, some token_file)
      else (fs, some token_file)

/-- The environment `cmd_start` runs in: whether `CONFIG_JSON` exists,
the state of `ENV_FILE` (read to build the subprocess environment), the
result of re-loading the config, the exit code of the
`compose ... up -d` invocation, and the time-varying observed state of
the token file during polling. -/
structure StartEnv where
  configJsonExists : Bool
  envFile : FileState
  cfgLoad : Except Unit (Option Dict)
  upExit : Nat
  poll : Nat → FileState

/-- Result of one `cmd_start` call.  `needsSetup` is the unconfigured
branch (line 418-420: the interactive `cmd_setup` flow runs, outside
this model); `raised` is an exception not caught by `cmd_start`;
`returned msg token fsAtUp` gives the returned message, the captured
readiness token, and the file-system state at the moment the
`compose up -d` command was issued. -/
inductive StartOutcome
  | needsSetup
  | raised
  | returned (msg : String) (token : Option String) (fsAtUp : FS)

/-- Embeds `cmd_start` (main.py lines 417-482).  In source order: the
unconfigured guard; reading `ENV_FILE` to extend the subprocess
environment (an unreadable env file raises, uncaught); the
stale-credential cleanup (`load_config()` raising propagates, uncaught);
the `compose ... up -d` invocation with `check=True` (a non-zero exit
raises `CalledProcessError`, caught at line 481, producing the failure
message); the readiness-poll loop; and the unconditional success
message.  Browser side effects (lines 474-478) do not affect the result
and are omitted. -/
def cmd_start (e : StartEnv) (fs : FS) : StartOutcome :=
  if !e.configJsonExists then .needsSetup
  else
    match e.envFile with
    | .unreadable => .raised
    | _ =>
      match e.cfgLoad with
      | .error _ => .raised
      | .ok cfgOpt =>
        let cfg := cfgOpt.getD []
        let (fs1, token_file) := start_cleanup cfg fs
        if e.upExit ≠ 0 then
          .returned "[error]Failed to start services.[/error]" none fs1
        else
          match token_file with
          | none => .returned "[success]Services started successfully.[/success]" none fs1
          | some _ =>
            match pollLoop e.poll 0 POLL_ATTEMPTS with
            | .error _ => .raised
            | .ok token =>
              .returned "[success]Services started successfully.[/success]" token fs1

-- --- Lifecycle Controller: status probe (main.py lines 254-268, 528-576) ---

/-- Embeds `is_service_running` (main.py lines 254-268):

    if not COMPOSE_FILE.exists():
        return False
    try:
        res = subprocess.run(DOCKER_CMD + ["compose", "-f", ..., "ps",
                             "--format", "json"], ...)
        return "jupyagent" in res.stdout and "running" in res.stdout.lower()
    except Exception:
        return False

`composeFileExists` is `COMPOSE_FILE.exists()`; `ps` is the outcome of
the `compose ps` invocation: `.error` when `subprocess.run` itself
raises, `.ok out` with the captured stdout otherwise (a non-zero exit
code does not raise since there is no `check=True`). -/
def is_service_running (composeFileExists : Bool) (ps : Except Unit String) : Bool :=
  if !composeFileExists then false
  else
    match ps with
    | .error _ => false
    | .ok out => strContains out "jupyagent" && strContains (pyLower out) "running"

/-- The token read performed by the dashboard when the services are
running (main.py lines 553-563):

    config = load_config() or {}
    token_file = Path(config.get("rw_path", ".")) / "TOKEN.txt"
    token = None
    if token_file.exists():
        try:
            content = token_file.read_text().strip()
            if content:
                token = content
        except Exception:
            pass

All read failures are swallowed (`except Exception: pass`), leaving the
token absent. -/
def dashboard_token (cfg : Dict) (readFile : String → FileState) : Option String :=
  let token_file := Dict.getD cfg "rw_path" "." ++ "/TOKEN.txt"
  match readFile token_file with
  | .missing => none
  | .unreadable => none
  | .content s => if pyStrip s = "" then none else some (pyStrip s)

/-- The composite status probe computed at the top of each
`cmd_dashboard` iteration (main.py lines 530-563): the `running` flag
from `is_service_running`, and, when running, the readiness token read
from the credential file. -/
def dashboard_status (composeFileExists : Bool) (ps : Except Unit String)
    (cfg : Dict) (readFile : String → FileState) : Bool × Option String :=
  let running := is_service_running composeFileExists ps
  if running then (true, dashboard_token cfg readFile) else (false, none)

-- --- Command Resolver and startup (main.py lines 84-143, 658-694) ---

/-- The fixed facts about the host that the startup probes observe:
whether `docker --version` succeeds (CLI present), whether
`docker info` succeeds (unprivileged daemon access), the platform, and
whether `sudo docker info` succeeds. -/
structure DockerEnv where
  versionOk : Bool
  infoOk : Bool
  isLinux : Bool
  sudoInfoOk : Bool
deriving DecidableEq, Repr

/-- Embeds `detect_docker_command` (main.py lines 84-115): try
`docker info`; on failure, and only when `platform.system() == "Linux"`,
try `sudo docker info`; returns the resolved global `DOCKER_CMD` prefix
and whether detection succeeded.  On total failure `DOCKER_CMD` keeps
its module-level default `["docker"]`. -/
def detect_docker_command (e : DockerEnv) : List String × Bool :=
  if e.infoOk then (["docker"], true)
  else if e.isLinux && e.sudoInfoOk then (["sudo", "docker"], true)
  else (["docker"], false)

/-- Embeds `check_docker` (main.py lines 118-129): `docker --version`
succeeds. -/
def check_docker (e : DockerEnv) : Bool := e.versionOk

/-- Embeds `check_docker_running` (main.py lines 132-143): run
`DOCKER_CMD + ["info"]` with the resolved prefix. -/
def check_docker_running (e : DockerEnv) (cmd : List String) : Bool :=
  if cmd = ["sudo", "docker"] then e.sudoInfoOk else e.infoOk

/-- Outcome of the prerequisite phase of `run` (main.py lines 658-673):
either `sys.exit(1)` before any config, artifact or lifecycle component
runs, or proceeding to the config stage with the resolved command
prefix. -/
inductive RunStage
  | fatalExit (code : Nat)
  | proceed (cmd : List String)
deriving DecidableEq, Repr

/-- Embeds step 1 of `run` (main.py lines 658-673): one
`detect_docker_command` pass (its Boolean result is discarded by the
source), then `check_docker` and `check_docker_running`, each fatal via
`sys.exit(1)`.  The config / artifact / lifecycle components (lines
676-694) are only reached through `.proceed`, which carries the resolved
prefix they all use. -/
def run_startup (e : DockerEnv) : RunStage :=
  let cmd := (detect_docker_command e).1
  if !check_docker e then .fatalExit 1
  else if !check_docker_running e cmd then .fatalExit 1
  else .proceed cmd

/-- The argv of the `compose build` invocation issued by `cmd_setup`
(main.py lines 397-410): the resolved prefix followed by fixed
arguments. -/
def build_invocation (cmd : List String) (home : String) : List String :=
  cmd ++ ["compose", "--env-file", ENV_FILE home, "-f", COMPOSE_FILE home, "build"]

/-- The argv of the `compose up -d` invocation issued by `cmd_start`
(main.py lines 444-460). -/
def up_invocation (cmd : List String) (home : String) : List String :=
  cmd ++ ["compose", "--env-file", ENV_FILE home, "-f", COMPOSE_FILE home, "up", "-d"]

/-- The argv of the `compose down` invocation issued by `cmd_stop`
(main.py lines 519-524). -/
def down_invocation (cmd : List String) (home : String) : List String :=
  cmd ++ ["compose", "-f", COMPOSE_FILE home, "down"]

/-- The argv of the `compose ps` invocation issued by
`is_service_running` (main.py lines 258-264). -/
def ps_invocation (cmd : List String) (home : String) : List String :=
  cmd ++ ["compose", "-f", COMPOSE_FILE home, "ps", "--format", "json"]

/-- The staleness comparison of `run` (main.py lines 683-686): the
stored `config.get("version")` (absent when there is no usable config)
against `get_version()`, compared with Python `!=`. -/
def version_mismatch (configVersion : Option String) (currentVersion : String) : Bool :=
  configVersion ≠ some currentVersion

/-- Outcome of step 2 of `run` (main.py lines 676-691). -/
inductive ConfigStage
  | firstTimeSetup
  | promptReconfigure (oldVersion : Option String) (newVersion : String)
  | proceedToDashboard
deriving DecidableEq, Repr

/-- Embeds step 2 of `run` (main.py lines 676-691): with no
`config.json`, the first-time setup flow runs; otherwise the stored
version is compared against the running build's version and any
mismatch signals the reconfiguration prompt
(`Confirm.ask("Re-configure to apply updates?")`).
`config.get("version") if config else None`: an unparsable config file
(load yields `None`) contributes no version. -/
def run_config_stage (configJsonExists : Bool) (cfgLoad : Option Dict)
    (currentVersion : String) : ConfigStage :=
  if !configJsonExists then .firstTimeSetup
  else
    let configVersion := cfgLoad.bind (fun c => Dict.get? c "version")
    if version_mismatch configVersion currentVersion then
      .promptReconfigure configVersion currentVersion
    else .proceedToDashboard

-- --- Open-Jupyter command (main.py lines 495-512) ---

/-- Embeds `cmd_open_jupyter` (main.py lines 495-512):

    config = load_config()
    if config:
        token_file = Path(config.get("rw_path", ".")) / "TOKEN.txt"
        token = DEFAULT_TOKEN
        if token_file.exists():
            try:
                content = token_file.read_text().strip()
                if content:
                    token = content
            except Exception:
                pass
        url = f"http://localhost:8888/lab?token={token}"
        ...
        return f"[info]Opened Jupyter at {url}[/info]"
    return "[error]Config not found.[/error]"

Returns the message and the URL opened (`none` when no browser was
opened).  `if config:` is Python dict truthiness: `None` and `{}` are
both falsy. -/
def cmd_open_jupyter (cfgLoad : Option Dict) (readFile : String → FileState) :
    String × Option String :=
  if dictTruthy cfgLoad then
    let cfg := cfgLoad.getD []
    let token_file := Dict.getD cfg "rw_path" "." ++ "/TOKEN.txt"
    let token :=
      match readFile token_file with
      | .missing => DEFAULT_TOKEN
      | .unreadable => DEFAULT_TOKEN
      | .content s => if pyStrip s = "" then DEFAULT_TOKEN else pyStrip s
    let url := "http://localhost:8888/lab?token=" ++ token
    ("[info]Opened Jupyter at " ++ url ++ "[/info]", some url)
  else ("[error]Config not found.[/error]", none)

-- --- The program's own .env reader (main.py lines 424-430) ---

/-- Embeds the `.env` loader used by `cmd_setup` and `cmd_start`
(main.py lines 388-394 and 424-430):

    for line in f:
        if "=" in line:
            key, value = line.strip().split("=", 1)
            env[key] = value

File iteration yields lines; splitting the content on newlines is
equivalent here because the `"=" in line` test and `line.strip()` are
insensitive to the trailing newline.  `split("=", 1)` splits at the
first `=` only. -/
def parse_env (s : String) : List (String × String) :=
  (pySplitChar s '\n').filterMap (fun line =>
    if strContains line "=" then
      let parts := pySplitChar (pyStrip line) '='
      some (parts.headD "", String.intercalate "=" parts.tail)
    else none)

/-- Python dict semantics for the accumulated `env[key] = value`
assignments: the last binding for a key wins. -/
def envGet (l : List (String × String)) (k : String) : Option String :=
  (l.reverse.find? (fun kv => kv.1 = k)).map (fun kv => kv.2)

-- --- Theorems ---

/-- C3: `stop()`, called in any configured state, always ends in (and
reports) the stopped state ("Services stopped.") regardless of the exit
code of the underlying `compose down` command, and invokes the tear-down
command; it is idempotent when already stopped because its result does
not depend on the prior running state at all; only a completely
unconfigured environment (no `config.json`) yields the "Not set up."
outcome without invoking the orchestration command. -/
theorem stop_always_reports_stopped :
    ∀ downExit : Nat,
      cmd_stop true downExit = ("[success]Services stopped.[/success]", true) ∧
      cmd_stop false downExit = ("[warning]Not set up.[/warning]", false) := by
  intro downExit
  exact ⟨rfl, rfl⟩

/-- C7 counterexample: the claim "for every file state, load() never
raises to the caller" is false: when the config descriptor file exists
but reading it fails (e.g. a permission error), the `OSError` raised by
`open` is not caught by the `except json.JSONDecodeError` handler and
propagates to the caller. -/
theorem load_config_raises_on_unreadable_file :
    load_config .unreadable (fun _ => none) = .error () := rfl

/-- C7 (amended): `load()` returns absent (not an exception) when the
config descriptor file is missing or when its content fails JSON
parsing; but when the file exists and reading it raises an I/O error,
that exception propagates to the caller. -/
theorem load_config_soft_fail :
    ∀ (parseJson : String → Option Dict) (s : String),
      load_config .missing parseJson = .ok none ∧
      (parseJson s = none → load_config (.content s) parseJson = .ok none) ∧
      load_config .unreadable parseJson = .error () := by
  intro parseJson s
  refine ⟨rfl, fun h => ?_, rfl⟩
  simp [load_config, h]

/-- Witness for C7's amended theorem at a concrete malformed file. -/
theorem load_config_soft_fail_witness :
    load_config (.content "not json") (fun _ => none) = .ok none :=
  (load_config_soft_fail (fun _ => none) "not json").2.1 rfl

/-- C8: the staleness comparison is the pure function
`version_mismatch` of the stored version and the running build's
version (Python `config.get("version") != current_version`), and
whenever the stored version differs from the running build's version —
in particular whenever it is older — the configured branch of `run`
signals the presentation layer with the reconfiguration prompt. -/
theorem version_staleness_prompts_reconfigure :
    ∀ (v cur : String) (cfgLoad : Option Dict) (cfg : Dict),
      (version_mismatch (some v) cur = true ↔ v ≠ cur) ∧
      (cfgLoad = some cfg → Dict.get? cfg "version" = some v → v ≠ cur →
        run_config_stage true cfgLoad cur = .promptReconfigure (some v) cur) := by
  intro v cur cfgLoad cfg
  constructor
  · simp [version_mismatch]
  · intro hload hv hne
    subst hload
    simp [run_config_stage, version_mismatch, hv, hne]

/-- Witness for C8 at a concrete stale config: stored version "0.1.0",
running build "0.2.0". -/
theorem version_staleness_prompts_reconfigure_witness :
    run_config_stage true (some [("version", "0.1.0")]) "0.2.0" =
      .promptReconfigure (some "0.1.0") "0.2.0" :=
  (version_staleness_prompts_reconfigure "0.1.0" "0.2.0"
      (some [("version", "0.1.0")]) [("version", "0.1.0")]).2 rfl rfl (by decide)

/-- C2: whenever the orchestration engine reports the environment
running (`is_service_running` is true), the dashboard status probe
reports `running = true`, and the readiness token is absent when the
credential file is missing, unreadable, or trims to empty — displayed
as the "starting" affordance, not an error — while a file whose content
is non-empty after stripping yields exactly that stripped content as
the token. -/
theorem status_running_token_contract :
    ∀ (composeFileExists : Bool) (ps : Except Unit String) (cfg : Dict)
      (readFile : String → FileState),
      is_service_running composeFileExists ps = true →
      (dashboard_status composeFileExists ps cfg readFile).1 = true ∧
      (readFile (Dict.getD cfg "rw_path" "." ++ "/TOKEN.txt") = .missing →
        (dashboard_status composeFileExists ps cfg readFile).2 = none) ∧
      (readFile (Dict.getD cfg "rw_path" "." ++ "/TOKEN.txt") = .unreadable →
        (dashboard_status composeFileExists ps cfg readFile).2 = none) ∧
      (∀ s, readFile (Dict.getD cfg "rw_path" "." ++ "/TOKEN.txt") = .content s →
        (dashboard_status composeFileExists ps cfg readFile).2 =
          (if pyStrip s = "" then none else some (pyStrip s))) := by
  intro composeFileExists ps cfg readFile hrun
  refine ⟨?_, ?_, ?_, ?_⟩
  · simp [dashboard_status, hrun]
  · intro h; simp [dashboard_status, hrun, dashboard_token, h]
  · intro h; simp [dashboard_status, hrun, dashboard_token, h]
  · intro s h; simp [dashboard_status, hrun, dashboard_token, h]

/-- Witness for C2 at a concrete running state with an empty credential
file. -/
theorem status_running_token_contract_witness :
    (dashboard_status true (.ok "jupyagent running") [("rw_path", "/w")]
        (fun _ => .content "  ")).2 = none :=
  ((status_running_token_contract true (.ok "jupyagent running") [("rw_path", "/w")]
      (fun _ => .content "  ")
      (by decide)).2.2.2 "  " rfl).trans (by decide)

/-- C10: when a usable config exists, the open-Jupyter command never
reports not-ready: if the readiness credential file is absent,
unreadable, or empty after stripping, it falls back to the fixed
default token "jupyagent" and opens a URL embedding that default token;
and an error result (no URL opened) occurs exactly when no usable
config was loaded (Python dict truthiness: `None` or an empty config
object). -/
theorem open_jupyter_default_token_fallback :
    ∀ (cfgLoad : Option Dict) (readFile : String → FileState) (cfg : Dict),
      (dictTruthy cfgLoad = false →
        cmd_open_jupyter cfgLoad readFile = ("[error]Config not found.[/error]", none)) ∧
      ((cmd_open_jupyter cfgLoad readFile).2 = none ↔ dictTruthy cfgLoad = false) ∧
      (cfgLoad = some cfg → cfg ≠ [] →
        notReady (readFile (Dict.getD cfg "rw_path" "." ++ "/TOKEN.txt")) = true ∨
          readFile (Dict.getD cfg "rw_path" "." ++ "/TOKEN.txt") = .unreadable →
        cmd_open_jupyter cfgLoad readFile =
          ("[info]Opened Jupyter at http://localhost:8888/lab?token=jupyagent[/info]",
            some "http://localhost:8888/lab?token=jupyagent")) := by
  intro cfgLoad readFile cfg
  refine ⟨?_, ?_, ?_⟩
  · intro h; simp [cmd_open_jupyter, h]
  · by_cases h : dictTruthy cfgLoad = true
    · simp [cmd_open_jupyter, h]
    · simp at h; simp [cmd_open_jupyter, h]
  · intro hload hne hfile
    subst hload
    have ht : dictTruthy (some cfg) = true := by
      simp [dictTruthy, List.isEmpty_iff, hne]
    rcases hfile with hnr | hur
    · cases hcase : readFile (Dict.getD cfg "rw_path" "." ++ "/TOKEN.txt") with
      | missing =>
        simp [cmd_open_jupyter, ht, hcase, DEFAULT_TOKEN]
        exact ⟨rfl, rfl⟩
      | unreadable =>
        simp [cmd_open_jupyter, ht, hcase, DEFAULT_TOKEN]
        exact ⟨rfl, rfl⟩
      | content s =>
        rw [hcase] at hnr
        simp [notReady] at hnr
        simp [cmd_open_jupyter, ht, hcase, hnr, DEFAULT_TOKEN]
        exact ⟨rfl, rfl⟩
    · simp [cmd_open_jupyter, ht, hur, DEFAULT_TOKEN]
      exact ⟨rfl, rfl⟩

/-- Witness for C10 at a concrete config whose credential file is
missing. -/
theorem open_jupyter_default_token_fallback_witness :
    cmd_open_jupyter (some [("rw_path", "/w")]) (fun _ => .missing) =
      ("[info]Opened Jupyter at http://localhost:8888/lab?token=jupyagent[/info]",
        some "http://localhost:8888/lab?token=jupyagent") :=
  (open_jupyter_default_token_fallback (some [("rw_path", "/w")]) (fun _ => .missing)
      [("rw_path", "/w")]).2.2 rfl (by decide) (Or.inl (by decide))

/-- If every polled state inside the window counts as not ready, the
poll loop finishes with no captured token (and no exception). -/
theorem pollLoop_all_notReady (poll : Nat → FileState) :
    ∀ (r i : Nat), (∀ j, j < r → notReady (poll (i + j)) = true) →
      pollLoop poll i r = .ok none := by
  intro r
  induction r with
  | zero => intro i _; rfl
  | succ r ih =>
    intro i h
    have h0 : notReady (poll i) = true := by
      have := h 0 (Nat.succ_pos r)
      simpa using this
    have hrest : ∀ j, j < r → notReady (poll (i + 1 + j)) = true := by
      intro j hj
      have := h (j + 1) (by omega)
      have harith : i + (j + 1) = i + 1 + j := by omega
      rwa [harith] at this
    cases hp : poll i with
    | missing => simp [pollLoop, hp, ih (i + 1) hrest]
    | unreadable => rw [hp] at h0; simp [notReady] at h0
    | content s =>
      rw [hp] at h0
      simp [notReady] at h0
      simp [pollLoop, hp, h0, ih (i + 1) hrest]

/-- With a non-empty `rw_path` configured, the cleanup phase of
`cmd_start` targets `rw_path/TOKEN.txt` and leaves no file there. -/
theorem start_cleanup_removes_token (cfg : Dict) (fs : FS) (rw : String)
    (hrw : Dict.get? cfg "rw_path" = some rw) (hne : rw ≠ "") :
    (start_cleanup cfg fs).2 = some (rw ++ "/TOKEN.txt") ∧
    (start_cleanup cfg fs).1.files (rw ++ "/TOKEN.txt") = none := by
  unfold start_cleanup
  rw [hrw]
  simp only [hne, if_false]
  by_cases hex : fs.fileExists (rw ++ "/TOKEN.txt") = true
  · simp [hex, FS.unlink]
  · simp only [Bool.not_eq_true] at hex
    simp only [hex]
    have : fs.files (rw ++ "/TOKEN.txt") = none := by
      cases hf : fs.files (rw ++ "/TOKEN.txt") with
      | none => rfl
      | some c => rw [FS.fileExists, hf] at hex; simp at hex
    simp [this]

/-- C6: the startup sequence resolves the orchestration command in one
pass with the unprivileged invocation attempted first, the
privilege-escalated invocation attempted only on Linux and only after
the unprivileged one failed; when neither invocation reaches the daemon
— or the Docker CLI is absent — `run` terminates with exit status 1
before the config / artifact / lifecycle components are reached; and
when startup proceeds, the prefix handed to all later components is the
one resolved by detection and every orchestration invocation (`build`,
`up`, `down`, `ps`) starts with exactly that prefix. -/
theorem startup_resolution_and_fatal_exit :
    ∀ e : DockerEnv,
      ((e.versionOk = false ∨
          (e.infoOk = false ∧ (e.isLinux = false ∨ e.sudoInfoOk = false))) →
        run_startup e = .fatalExit 1) ∧
      (e.infoOk = true → detect_docker_command e = (["docker"], true)) ∧
      (e.infoOk = false → e.isLinux = true → e.sudoInfoOk = true →
        detect_docker_command e = (["sudo", "docker"], true)) ∧
      (e.infoOk = false → e.isLinux = false →
        detect_docker_command e = (["docker"], false)) ∧
      (run_startup e = .proceed (detect_docker_command e).1 ∨
        run_startup e = .fatalExit 1) ∧
      (∀ (cmd : List String) (home : String), run_startup e = .proceed cmd →
        (build_invocation cmd home).take cmd.length = cmd ∧
        (up_invocation cmd home).take cmd.length = cmd ∧
        (down_invocation cmd home).take cmd.length = cmd ∧
        (ps_invocation cmd home).take cmd.length = cmd) := by
  intro e
  obtain ⟨v, i, l, s⟩ := e
  refine ⟨?_, ?_, ?_, ?_, ?_, ?_⟩
  · revert v i l s; decide
  · revert v i l s; decide
  · revert v i l s; decide
  · revert v i l s; decide
  · revert v i l s; decide
  · intro cmd home _
    exact ⟨List.take_left .., List.take_left .., List.take_left .., List.take_left ..⟩

/-- Witness for C6: a host where neither `docker info` nor
`sudo docker info` succeeds exits fatally with status 1. -/
theorem startup_resolution_and_fatal_exit_witness :
    run_startup ⟨true, false, true, false⟩ = .fatalExit 1 :=
  (startup_resolution_and_fatal_exit ⟨true, false, true, false⟩).1
    (Or.inr ⟨rfl, Or.inr rfl⟩)

/-- An empty file system, used to instantiate witnesses. -/
def emptyFS : FS := ⟨fun _ => none, fun _ => false, fun _ => false⟩

/-- A concrete configured start environment: config present, readable
(empty) env file, a loaded config with `rw_path = "/w"`, the `up`
command exiting 0, and a credential file that never appears. -/
def timeoutStartEnv : StartEnv :=
  ⟨true, .missing, .ok (some [("rw_path", "/w")]), 0, fun _ => .missing⟩

/-- C1: for every configuration (non-empty `rw_path` set, config
loadable, readable environment) in which the `compose up -d` command
exited zero, exhausting the thirty one-second readiness-poll attempts
without a non-empty credential file appearing still makes `start()`
return the overall success message for the "up" step with no captured
token — an indeterminate readiness result, not a failure. -/
theorem start_poll_timeout_reports_success :
    ∀ (e : StartEnv) (fs : FS) (cfg : Dict) (rw : String),
      e.configJsonExists = true →
      e.envFile ≠ .unreadable →
      e.cfgLoad = .ok (some cfg) →
      Dict.get? cfg "rw_path" = some rw →
      rw ≠ "" →
      e.upExit = 0 →
      (∀ j, j < POLL_ATTEMPTS → notReady (e.poll j) = true) →
      cmd_start e fs =
        .returned "[success]Services started successfully.[/success]" none
          (start_cleanup cfg fs).1 := by
  intro e fs cfg rw hcje henv hcfg hrw hne hup hpoll
  obtain ⟨cje, envf, cfgl, upx, poll⟩ := e
  simp only at hcje henv hcfg hrw hup hpoll
  subst hcje hcfg hup
  have hpoll30 : pollLoop poll 0 POLL_ATTEMPTS = .ok none := by
    apply pollLoop_all_notReady
    intro j hj
    simpa using hpoll j hj
  have hclean := start_cleanup_removes_token cfg fs rw hrw hne
  cases envf with
  | unreadable => exact absurd rfl henv
  | missing =>
    simp only [cmd_start, Bool.not_true, Bool.false_eq_true, if_false,
      Option.getD_some]
    rw [show (start_cleanup cfg fs) = ((start_cleanup cfg fs).1, (start_cleanup cfg fs).2) from rfl]
    simp [hclean.1, hpoll30]
  | content s =>
    simp only [cmd_start, Bool.not_true, Bool.false_eq_true, if_false,
      Option.getD_some]
    rw [show (start_cleanup cfg fs) = ((start_cleanup cfg fs).1, (start_cleanup cfg fs).2) from rfl]
    simp [hclean.1, hpoll30]

/-- Witness for C1: the concrete timed-out start reports success with no
token. -/
theorem start_poll_timeout_reports_success_witness :
    cmd_start timeoutStartEnv emptyFS =
      .returned "[success]Services started successfully.[/success]" none
        (start_cleanup [("rw_path", "/w")] emptyFS).1 :=
  start_poll_timeout_reports_success timeoutStartEnv emptyFS [("rw_path", "/w")] "/w"
    rfl (by decide) rfl rfl (by decide) rfl (fun _ _ => rfl)

/-- C4: for every configuration with a non-empty read-write path set,
`start()` deletes any existing readiness credential file
`rw_path/TOKEN.txt` before issuing the `compose up -d` command: the
file-system state at the moment the up command is issued — which is the
`fsAtUp` component of every returned outcome — never contains the
credential file, so a token captured afterwards cannot be a stale
credential from a previous run. -/
theorem start_deletes_stale_credential :
    ∀ (e : StartEnv) (fs : FS) (cfg : Dict) (rw : String),
      e.configJsonExists = true →
      e.envFile ≠ .unreadable →
      e.cfgLoad = .ok (some cfg) →
      Dict.get? cfg "rw_path" = some rw →
      rw ≠ "" →
      (start_cleanup cfg fs).1.files (rw ++ "/TOKEN.txt") = none ∧
      (∀ msg token fsAtUp, cmd_start e fs = .returned msg token fsAtUp →
        fsAtUp = (start_cleanup cfg fs).1) := by
  intro e fs cfg rw hcje henv hcfg hrw hne
  have hclean := start_cleanup_removes_token cfg fs rw hrw hne
  refine ⟨hclean.2, ?_⟩
  intro msg token fsAtUp hrun
  obtain ⟨cje, envf, cfgl, upx, poll⟩ := e
  simp only at hcje hcfg hrun
  subst hcje hcfg
  have hsplit : (start_cleanup cfg fs) = ((start_cleanup cfg fs).1, (start_cleanup cfg fs).2) := rfl
  cases envf with
  | unreadable => exact absurd rfl henv
  | missing =>
    rw [cmd_start] at hrun
    simp only [Bool.not_true, Bool.false_eq_true, if_false, Option.getD_some] at hrun
    rw [hsplit] at hrun
    by_cases hup : upx ≠ 0
    · rw [if_pos hup] at hrun
      simp only [StartOutcome.returned.injEq] at hrun
      exact hrun.2.2.symm
    · rw [if_neg hup] at hrun
      rw [hclean.1] at hrun
      cases hpl : pollLoop poll 0 POLL_ATTEMPTS with
      | error e => rw [hpl] at hrun; simp at hrun
      | ok tok =>
        rw [hpl] at hrun
        simp only [StartOutcome.returned.injEq] at hrun
        exact hrun.2.2.symm
  | content s =>
    rw [cmd_start] at hrun
    simp only [Bool.not_true, Bool.false_eq_true, if_false, Option.getD_some] at hrun
    rw [hsplit] at hrun
    by_cases hup : upx ≠ 0
    · rw [if_pos hup] at hrun
      simp only [StartOutcome.returned.injEq] at hrun
      exact hrun.2.2.symm
    · rw [if_neg hup] at hrun
      rw [hclean.1] at hrun
      cases hpl : pollLoop poll 0 POLL_ATTEMPTS with
      | error e => rw [hpl] at hrun; simp at hrun
      | ok tok =>
        rw [hpl] at hrun
        simp only [StartOutcome.returned.injEq] at hrun
        exact hrun.2.2.symm

/-- Witness for C4: at the concrete environment, no credential file
survives into the state the up command sees. -/
theorem start_deletes_stale_credential_witness :
    (start_cleanup [("rw_path", "/w")] emptyFS).1.files ("/w" ++ "/TOKEN.txt") = none :=
  (start_deletes_stale_credential timeoutStartEnv emptyFS [("rw_path", "/w")] "/w"
    rfl (by decide) rfl rfl (by decide)).1

/-- Pointwise update of a map at one key. -/
def override {α : Type} (p : String) (v : α) (f : String → α) : String → α :=
  fun q => if q = p then v else f q

/-- Sequential pointwise updates: earlier list entries are applied
first (so later entries shadow earlier ones). -/
def overrides {α : Type} : List (String × α) → (String → α) → (String → α)
  | [], f => f
  | (p, v) :: ws, f => overrides ws (override p v f)

/-- Evaluating a sequence of updates: the last update for the key wins,
and keys never updated fall through to the base map. -/
theorem overrides_apply {α : Type} (ws : List (String × α)) (f : String → α)
    (q : String) :
    overrides ws f q =
      ((ws.reverse.find? (fun w => decide (w.1 = q))).map (fun w => w.2)).getD (f q) := by
  induction ws generalizing f with
  | nil => rfl
  | cons hd tl ih =>
    obtain ⟨p, v⟩ := hd
    rw [overrides, ih, List.reverse_cons, List.find?_append]
    cases htl : tl.reverse.find? (fun w => decide (w.1 = q)) with
    | some w => simp [htl]
    | none =>
      by_cases hq : p = q
      · subst hq; simp [htl, List.find?, override]
      · simp [htl, List.find?, hq, override]
        intro h
        exact absurd h.symm hq

/-- Re-applying the same update sequence is the identity. -/
theorem overrides_idem {α : Type} (ws : List (String × α)) (f : String → α) :
    overrides ws (overrides ws f) = overrides ws f := by
  funext q
  rw [overrides_apply, overrides_apply]
  cases h : ws.reverse.find? (fun w => decide (w.1 = q)) with
  | some w => simp [h]
  | none => simp [h, overrides_apply]

/-- The file writes performed by one generator run, in source order. -/
def generated_file_writes (home : String) (pkg : String → String)
    (ro_path rw_path jupyter_token : String) : List (String × Option String) :=
  [(jupyter_dir home ++ "/" ++ "Dockerfile", some (pkg "Dockerfile")),
   (jupyter_dir home ++ "/" ++ "supervisord.conf", some (pkg "supervisord.conf")),
   (jupyter_dir home ++ "/" ++ "start.sh", some (pkg "start.sh")),
   (jupyter_dir home ++ "/" ++ "opencode.json.template", some (pkg "opencode.json.template")),
   (jupyter_dir home ++ "/" ++ "register-kernel.sh", some (pkg "register-kernel.sh")),
   (jupyter_dir home ++ "/" ++ "run-jupyter-mcp.sh", some (pkg "run-jupyter-mcp.sh")),
   (jupyter_dir home ++ "/" ++ "jupyter_settings.json", some (pkg "jupyter_settings.json")),
   (ENV_FILE home, some (env_file_content jupyter_token ro_path rw_path)),
   (COMPOSE_FILE home, some (compose_content home ro_path rw_path jupyter_token))]

/-- The directories created by one generator run, in source order. -/
def generated_dirs (home : String) : List (String × Bool) :=
  [(jupyter_dir home, true), (opencode_config_dir home, true),
   (opencode_data_dir home, true), (claude_config_dir home, true)]

/-- The executable bits set by one generator run, in source order. -/
def generated_exec_bits (home : String) : List (String × Bool) :=
  [(jupyter_dir home ++ "/" ++ "start.sh", true),
   (jupyter_dir home ++ "/" ++ "register-kernel.sh", true),
   (jupyter_dir home ++ "/" ++ "run-jupyter-mcp.sh", true)]

/-- The generator's effect on file contents is exactly its write
sequence. -/
theorem generate_ok_files (home : String) (pkg : String → String)
    (ro_path rw_path jupyter_token : String) (fs : FS) :
    (generate_docker_files_ok home pkg ro_path rw_path jupyter_token fs).files =
      overrides (generated_file_writes home pkg ro_path rw_path jupyter_token) fs.files := rfl

/-- The generator's effect on directories is exactly its mkdir
sequence. -/
theorem generate_ok_dirs (home : String) (pkg : String → String)
    (ro_path rw_path jupyter_token : String) (fs : FS) :
    (generate_docker_files_ok home pkg ro_path rw_path jupyter_token fs).dirs =
      overrides (generated_dirs home) fs.dirs := rfl

/-- The generator's effect on executable bits is exactly its chmod
sequence. -/
theorem generate_ok_execBit (home : String) (pkg : String → String)
    (ro_path rw_path jupyter_token : String) (fs : FS) :
    (generate_docker_files_ok home pkg ro_path rw_path jupyter_token fs).execBit =
      overrides (generated_exec_bits home) fs.execBit := rfl

/-- C5: artifact generation is a deterministic, idempotent function of
the configuration: it is a Lean function of the config (determinism),
and running the generator a second time on the file system produced by
a first successful run succeeds and leaves that file system unchanged —
in particular the descriptor, environment-variable, and build-context
files are byte-identical between the two runs. -/
theorem generate_docker_files_idempotent :
    ∀ (home : String) (pkg : String → String) (cfg : Dict) (fs fs' : FS),
      generate_docker_files home pkg cfg fs = .ok fs' →
      generate_docker_files home pkg cfg fs' = .ok fs' := by
  intro home pkg cfg fs fs' h
  unfold generate_docker_files at h ⊢
  cases hro : Dict.get? cfg "ro_path" with
  | none => rw [hro] at h; simp at h
  | some ro =>
    cases hrw : Dict.get? cfg "rw_path" with
    | none => rw [hro, hrw] at h; simp at h
    | some rw =>
      simp only [hro, hrw, Except.ok.injEq] at h ⊢
      subst h
      refine FS.ext ?_ ?_ ?_
      · simp only [generate_ok_files]
        exact overrides_idem _ _
      · simp only [generate_ok_dirs]
        exact overrides_idem _ _
      · simp only [generate_ok_execBit]
        exact overrides_idem _ _

/-- A concrete packaged-file oracle for the generator witness. -/
def constantPkg : String → String := fun _ => "FILE"

/-- A concrete valid config for the generator witness. -/
def sampleCfg : Dict := [("ro_path", "/ro"), ("rw_path", "/rw")]

/-- The file system produced by one generator run from the empty file
system. -/
def generatedFS : FS :=
  match generate_docker_files "/home/u" constantPkg sampleCfg emptyFS with
  | .ok f => f
  | .error _ => emptyFS

/-- Witness for C5: re-running the generator on its own concrete output
reproduces that output. -/
theorem generate_docker_files_idempotent_witness :
    generate_docker_files "/home/u" constantPkg sampleCfg generatedFS = .ok generatedFS :=
  generate_docker_files_idempotent "/home/u" constantPkg sampleCfg emptyFS generatedFS rfl

set_option maxRecDepth 8192 in
/-- C9 counterexample: the claim that the artifact generator
escapes/quotes path and token values so that special characters cannot
corrupt the generated files is false.  For a token containing a newline
and an `=`, the generated `.env` file no longer represents the
configured token: read back through the program's own env-file loader
(the `cmd_start`/`cmd_setup` parsing loop), `JUPYTER_TOKEN` comes back
truncated. -/
theorem generator_escaping_counterexample :
    envGet (parse_env (env_file_content "tok\nINJECTED=evil" "/data ro" "/data rw"))
      "JUPYTER_TOKEN" ≠ some "tok\nINJECTED=evil" := by decide

set_option maxRecDepth 8192 in
/-- C9 (amended): the generator performs no escaping or quoting —
values are substituted verbatim into the `.env` file and the compose
descriptor.  Values without newlines (including paths with spaces)
survive the `.env` key=value format, but a token containing a newline
plus `=` injects an additional variable (`INJECTED=evil`) and truncates
the token, and a read-write path containing newlines injects additional
verbatim lines — here a complete extra volume-mount entry — into the
descriptor, changing its line structure (20 lines nominally). -/
theorem generator_substitutes_verbatim :
    (envGet (parse_env (env_file_content "tok\nINJECTED=evil" "/data ro" "/data rw"))
        "JUPYTER_TOKEN" = some "tok" ∧
      envGet (parse_env (env_file_content "tok\nINJECTED=evil" "/data ro" "/data rw"))
        "INJECTED" = some "evil" ∧
      envGet (parse_env (env_file_content "tok\nINJECTED=evil" "/data ro" "/data rw"))
        "RO_PATH" = some "/data ro") ∧
    ((pySplitChar (compose_content "/home/u" "/ro" "/rw" "tok") '\n').length = 20 ∧
      (pySplitChar (compose_content "/home/u" "/ro"
          "/rw\n      - /:/host_root:rw\n      - /dummy" "tok") '\n').length = 22 ∧
      (pySplitChar (compose_content "/home/u" "/ro"
          "/rw\n      - /:/host_root:rw\n      - /dummy" "tok") '\n').contains
        "      - /:/host_root:rw" = true) := by decide

end Jupyagent
